import Mathlib

/-!
Verification development for the Universal MCP Manager repository.

The definitions below are a shallow embedding of the reconciliation core:
the vetted-server catalog, the package installer and verifier
(src/main/services/mcp-server-manager.ts), the per-tool JSON config writer,
the AI tool detector, and the in-memory server registry of the renderer.
External effects (npm subprocesses, filesystem write success) are passed in
as an explicit environment of outcomes; JSON documents are modelled as
association lists of string keys.
-/

namespace MCPManager

/-- JSON values, as produced by JSON.parse. Objects are association lists
    (JSON.parse yields unique keys, the last duplicate winning). -/
inductive Json where
  | null
  | bool (b : Bool)
  | num (n : Int)
  | str (s : String)
  | arr (xs : List Json)
  | obj (kvs : List (String × Json))

/-- JavaScript truthiness of a parsed JSON value. -/
def Json.truthy : Json → Bool
  | .null => false
  | .bool b => b
  | .num n => n != 0
  | .str s => s != ""
  | .arr _ => true
  | .obj _ => true

/-- Property lookup on a JavaScript object: first binding of the key. -/
def getKey {α : Type} : List (String × α) → String → Option α
  | [], _ => none
  | (k, v) :: rest, key => if k == key then some v else getKey rest key

/-- Property assignment on a JavaScript object: replace the first binding
    of the key, or append a new binding when the key is absent. -/
def setKey {α : Type} : List (String × α) → String → α → List (String × α)
  | [], key, v => [(key, v)]
  | (k, w) :: rest, key, v =>
      if k == key then (key, v) :: rest else (k, w) :: setKey rest key v

/-- The delete operator on a JavaScript object (keys of a parsed document
    are unique, so removing every binding of the key is the same). -/
def delKey {α : Type} : List (String × α) → String → List (String × α)
  | [], _ => []
  | (k, v) :: rest, key =>
      if k == key then delKey rest key else (k, v) :: delKey rest key

theorem getKey_setKey_same {α : Type} (kvs : List (String × α)) (key : String) (v : α) :
    getKey (setKey kvs key v) key = some v := by
  induction kvs with
  | nil => simp [setKey, getKey]
  | cons p rest ih =>
      obtain ⟨k, w⟩ := p
      by_cases h : k = key
      · subst h; simp [setKey, getKey]
      · simp [setKey, getKey, beq_iff_eq, h, ih]

theorem getKey_setKey_other {α : Type} (kvs : List (String × α)) (key k : String) (v : α)
    (h : k ≠ key) : getKey (setKey kvs key v) k = getKey kvs k := by
  induction kvs with
  | nil => simp [setKey, getKey, beq_iff_eq, Ne.symm h]
  | cons p rest ih =>
      obtain ⟨k', w⟩ := p
      by_cases h1 : k' = key
      · subst h1
        simp [setKey, getKey, beq_iff_eq, Ne.symm h]
      · simp [setKey, getKey, beq_iff_eq, h1, ih]

theorem getKey_delKey_same {α : Type} (kvs : List (String × α)) (key : String) :
    getKey (delKey kvs key) key = none := by
  induction kvs with
  | nil => simp [delKey, getKey]
  | cons p rest ih =>
      obtain ⟨k, w⟩ := p
      by_cases h : k = key
      · simp [delKey, beq_iff_eq, h, ih]
      · simp [delKey, getKey, beq_iff_eq, h, ih]

theorem getKey_delKey_other {α : Type} (kvs : List (String × α)) (key k : String)
    (h : k ≠ key) : getKey (delKey kvs key) k = getKey kvs k := by
  induction kvs with
  | nil => simp [delKey, getKey]
  | cons p rest ih =>
      obtain ⟨k', w⟩ := p
      by_cases h1 : k' = key
      · subst h1
        simp [delKey, getKey, beq_iff_eq, Ne.symm h, ih]
      · simp [delKey, getKey, beq_iff_eq, h1, ih]

theorem delKey_setKey_self {α : Type} (kvs : List (String × α)) (key : String) (v : α) :
    delKey (setKey kvs key v) key = delKey kvs key := by
  induction kvs with
  | nil => simp [setKey, delKey]
  | cons p rest ih =>
      obtain ⟨k, w⟩ := p
      by_cases h : k = key
      · subst h; simp [setKey, delKey]
      · simp [setKey, delKey, beq_iff_eq, h, ih]

/-- A catalog entry of the hardcoded vetted-server list
    (MCPServerManager.vettedServers, without the mutable fields). -/
structure VettedServer where
  id : String
  name : String
  company : String
  description : String
  packageName : String
  requiresAuth : Bool

/-- The fixed vetted-server catalog of MCPServerManager. -/
def vettedServers : List VettedServer :=
  [ { id := "github-mcp", name := "GitHub MCP Server", company := "github",
      description := "Access GitHub repositories, files, issues, and pull requests. Features automatic branch creation and comprehensive error handling.",
      packageName := "@modelcontextprotocol/server-github", requiresAuth := true },
    { id := "filesystem-mcp", name := "File System MCP Server", company := "anthropic",
      description := "Secure file operations with configurable access controls. Flexible directory access control system.",
      packageName := "@modelcontextprotocol/server-filesystem", requiresAuth := false },
    { id := "fetch-mcp", name := "Fetch MCP Server", company := "anthropic",
      description := "Web content fetching and conversion for efficient LLM usage. Convert web pages to markdown.",
      packageName := "@modelcontextprotocol/server-fetch", requiresAuth := false },
    { id := "git-mcp", name := "Git MCP Server", company := "anthropic",
      description := "Tools to read, search, and manipulate Git repositories. Access commit history and repository information.",
      packageName := "@modelcontextprotocol/server-git", requiresAuth := false },
    { id := "memory-mcp", name := "Memory MCP Server", company := "anthropic",
      description := "Knowledge graph-based persistent memory system for maintaining context across conversations.",
      packageName := "@modelcontextprotocol/server-memory", requiresAuth := false },
    { id := "time-mcp", name := "Time MCP Server", company := "anthropic",
      description := "Time and timezone conversion capabilities. Handle date/time operations and conversions.",
      packageName := "@modelcontextprotocol/server-time", requiresAuth := false },
    { id := "azure-mcp", name := "Azure MCP Server", company := "azure",
      description := "Access key Azure services and tools like Azure Storage, Cosmos DB, and the Azure CLI.",
      packageName := "azure-mcp-server", requiresAuth := true },
    { id := "aiven-mcp", name := "Aiven MCP Server", company := "aiven",
      description := "Navigate Aiven projects and interact with PostgreSQL, Apache Kafka, ClickHouse and OpenSearch services.",
      packageName := "@aiven/mcp-aiven", requiresAuth := true } ]

/-- Outcomes of the external effects a manager operation can perform.
    Each subprocess call site and each writeFileSync call site of the
    TypeScript code catches its own errors, so every effect is modelled as
    a total outcome function supplied by this environment. -/
structure Env where
  /-- npm list -g pkg succeeded and its stdout contains pkg. -/
  npmListOk : String → Bool
  /-- npx --yes pkg --help exited without error. -/
  npxHelpOk : String → Bool
  /-- some message when npm install -g pkg threw, none when it exited cleanly. -/
  npmInstallErr : String → Option String
  /-- presence re-check performed right after the install attempt. -/
  pkgPresentAfterInstall : String → Bool
  /-- some message when npm uninstall -g pkg threw, none when it exited cleanly. -/
  npmUninstallErr : String → Option String
  /-- presence re-check performed right after the uninstall attempt. -/
  pkgPresentAfterUninstall : String → Bool
  /-- the one-shot jsonrpc request piped through npx pkg exited without error. -/
  npxRespondOk : String → Bool
  /-- writeFileSync of the persisted install-state file succeeded. -/
  persistOk : Bool
  /-- writeFileSync of the given tool configuration file succeeded. -/
  writeToolOk : String → Bool

/-- checkNpmPackageInstalled: global npm listing, falling back to an npx probe. -/
def checkNpmPackageInstalled (packageName : String) (env : Env) : Bool :=
  env.npmListOk packageName || env.npxHelpOk packageName

/-- installNpmPackage: run npm install -g, then verify by re-checking presence.
    Returns the success flag together with the optional error string. -/
def installNpmPackage (packageName : String) (env : Env) : Bool × Option String :=
  match env.npmInstallErr packageName with
  | some e => (false, some e)
  | none =>
      if env.pkgPresentAfterInstall packageName then (true, none)
      else (false, some "Package installation verification failed")

/-- uninstallNpmPackage: succeed immediately when the package is absent,
    otherwise run npm uninstall -g and verify by re-checking presence. -/
def uninstallNpmPackage (packageName : String) (env : Env) : Bool × Option String :=
  if !(checkNpmPackageInstalled packageName env) then (true, none)
  else
    match env.npmUninstallErr packageName with
    | some e => (false, some e)
    | none =>
        if !(env.pkgPresentAfterUninstall packageName) then (true, none)
        else (false, some "Package uninstallation verification failed")

/-- A value of the persisted installedServers record: the catalog snapshot
    plus the mutable install-time fields. -/
structure InstalledRecord where
  server : VettedServer
  installed : Bool
  enabledTools : List String
  config : Json

/-- The persisted install-state document, keyed by server identifier. -/
def Store := List (String × InstalledRecord)

/-- Result of the three-point health check of verifyServerInstallation. -/
structure Verification where
  packageAvailable : Bool
  configurationValid : Bool
  serverResponds : Bool
  overallStatus : String

/-- The tri-state reduction at the end of verifyServerInstallation
    (mcp-server-manager.ts lines 665 to 674). -/
def overallStatusOf (packageAvailable configurationValid serverResponds : Bool) : String :=
  if packageAvailable && configurationValid then
    if serverResponds then "working" else "partial"
  else if configurationValid then "partial"
  else "failed"

/-- verifyServerInstallation: package presence, key membership in the
    persisted store, and a gated responsiveness probe, reduced to one status. -/
def verifyServerInstallation (serverId : String) (env : Env) (store : Store) : Verification :=
  match vettedServers.find? (fun s => s.id == serverId) with
  | none =>
      { packageAvailable := false, configurationValid := false,
        serverResponds := false, overallStatus := "failed" }
  | some sc =>
      let packageAvailable := checkNpmPackageInstalled sc.packageName env
      let configurationValid := (getKey store serverId).isSome
      let serverResponds := packageAvailable && env.npxRespondOk sc.packageName
      { packageAvailable := packageAvailable, configurationValid := configurationValid,
        serverResponds := serverResponds,
        overallStatus := overallStatusOf packageAvailable configurationValid serverResponds }

/-- State of a tool configuration file on disk: absent, present but not
    valid JSON, or present with a parsed top-level object. -/
inductive FileState where
  | missing
  | malformed
  | parsed (kvs : List (String × Json))

/-- Reading an existing config: missing and malformed files are treated as
    an empty object by the configure functions. -/
def fileContentOrEmpty : FileState → List (String × Json)
  | .parsed kvs => kvs
  | _ => []

/-- getDefaultEnvVars: the placeholder credential environment variables
    injected for servers that require authentication. -/
def getDefaultEnvVars (serverId : String) : List (String × Json) :=
  if serverId == "github-mcp" then
    [("GITHUB_PERSONAL_ACCESS_TOKEN", Json.str "your_github_token_here")]
  else if serverId == "notion-mcp" then
    [("NOTION_API_KEY", Json.str "your_notion_key_here")]
  else if serverId == "slack-mcp" then
    [("SLACK_BOT_TOKEN", Json.str "your_slack_token_here")]
  else if serverId == "linear-mcp" then
    [("LINEAR_API_KEY", Json.str "your_linear_key_here")]
  else []

/-- The MCP server entry each configure function writes: command npx with
    the package name as argument, plus placeholder env when auth is required. -/
def serverEntryJson (serverId : String) (sc : VettedServer) : Json :=
  Json.obj ([("command", Json.str "npx"), ("args", Json.arr [Json.str sc.packageName])] ++
    (if sc.requiresAuth then [("env", Json.obj (getDefaultEnvVars serverId))] else []))

/-- The namespace object of a config document, or an empty object when the
    key is absent (the assignment ns = ns or emptyobject; a truthy value of
    a non-object shape is not modelled and is excluded by hypothesis where
    it matters). -/
def nsObjOrEmpty (kvs : List (String × Json)) (ns : String) : List (String × Json) :=
  match getKey kvs ns with
  | some (Json.obj s) => s
  | _ => []

/-- Whether the namespace key of the document holds an object (or is absent),
    the shapes the embedding models faithfully. -/
def nsObjOk (kvs : List (String × Json)) (ns : String) : Bool :=
  match getKey kvs ns with
  | none => true
  | some (Json.obj _) => true
  | some _ => false

/-- Merge the server entry for serverId into the document under the
    tool-specific namespace key. -/
def writeEntry (ns serverId : String) (sc : VettedServer) (kvs : List (String × Json)) :
    List (String × Json) :=
  setKey kvs ns (Json.obj (setKey (nsObjOrEmpty kvs ns) serverId (serverEntryJson serverId sc)))

/-- Whether the removal functions write the file back: the namespace holds
    an object whose entry for serverId is truthy. -/
def removeWrites (ns serverId : String) (kvs : List (String × Json)) : Bool :=
  match getKey kvs ns with
  | some (Json.obj s) =>
      match getKey s serverId with
      | some e => e.truthy
      | none => false
  | _ => false

/-- Delete the entry for serverId from the namespace object of the document
    (a no-op when the entry is not a truthy member of an object namespace). -/
def removeEntry (ns serverId : String) (kvs : List (String × Json)) : List (String × Json) :=
  match getKey kvs ns with
  | some (Json.obj s) =>
      match getKey s serverId with
      | some e =>
          if e.truthy then setKey kvs ns (Json.obj (delKey s serverId)) else kvs
      | none => kvs
  | _ => kvs

/-- configureClaudeDesktop: creates the directory when missing, treats a
    missing or unparsable file as an empty object, merges the entry under
    mcpServers and writes the file back (creating it when it did not exist).
    The none result models writeFileSync throwing. -/
def configureClaudeDesktop (serverId : String) (sc : VettedServer) (writeOk : Bool)
    (file : FileState) : Option FileState :=
  if writeOk then
    some (.parsed (writeEntry "mcpServers" serverId sc (fileContentOrEmpty file)))
  else none

/-- configureClaudeCode: same shape as configureClaudeDesktop, writing the
    mcpServers namespace of the claude config file. -/
def configureClaudeCode (serverId : String) (sc : VettedServer) (writeOk : Bool)
    (file : FileState) : Option FileState :=
  if writeOk then
    some (.parsed (writeEntry "mcpServers" serverId sc (fileContentOrEmpty file)))
  else none

/-- configureVSCode: returns without writing when settings.json does not
    exist; otherwise merges the entry under the mcp.servers key. -/
def configureVSCode (serverId : String) (sc : VettedServer) (writeOk : Bool)
    (file : FileState) : Option FileState :=
  match file with
  | .missing => some .missing
  | f =>
      if writeOk then
        some (.parsed (writeEntry "mcp.servers" serverId sc (fileContentOrEmpty f)))
      else none

/-- configureCursor: same shape as configureVSCode for the Cursor settings. -/
def configureCursor (serverId : String) (sc : VettedServer) (writeOk : Bool)
    (file : FileState) : Option FileState :=
  match file with
  | .missing => some .missing
  | f =>
      if writeOk then
        some (.parsed (writeEntry "mcp.servers" serverId sc (fileContentOrEmpty f)))
      else none

/-- removeFromClaudeDesktop: skip missing and unparsable files, delete the
    mcpServers entry and write back only when the entry is present. -/
def removeFromClaudeDesktop (serverId : String) (writeOk : Bool)
    (file : FileState) : Option FileState :=
  match file with
  | .missing => some .missing
  | .malformed => some .malformed
  | .parsed kvs =>
      if removeWrites "mcpServers" serverId kvs then
        (if writeOk then some (.parsed (removeEntry "mcpServers" serverId kvs)) else none)
      else some (.parsed kvs)

/-- removeFromClaudeCode: same shape as removeFromClaudeDesktop. -/
def removeFromClaudeCode (serverId : String) (writeOk : Bool)
    (file : FileState) : Option FileState :=
  match file with
  | .missing => some .missing
  | .malformed => some .malformed
  | .parsed kvs =>
      if removeWrites "mcpServers" serverId kvs then
        (if writeOk then some (.parsed (removeEntry "mcpServers" serverId kvs)) else none)
      else some (.parsed kvs)

/-- removeFromVSCode: same shape, on the mcp.servers namespace. -/
def removeFromVSCode (serverId : String) (writeOk : Bool)
    (file : FileState) : Option FileState :=
  match file with
  | .missing => some .missing
  | .malformed => some .malformed
  | .parsed kvs =>
      if removeWrites "mcp.servers" serverId kvs then
        (if writeOk then some (.parsed (removeEntry "mcp.servers" serverId kvs)) else none)
      else some (.parsed kvs)

/-- removeFromCursor: same shape, on the mcp.servers namespace. -/
def removeFromCursor (serverId : String) (writeOk : Bool)
    (file : FileState) : Option FileState :=
  match file with
  | .missing => some .missing
  | .malformed => some .malformed
  | .parsed kvs =>
      if removeWrites "mcp.servers" serverId kvs then
        (if writeOk then some (.parsed (removeEntry "mcp.servers" serverId kvs)) else none)
      else some (.parsed kvs)

/-- The open-config-file IPC handler: create parent directories and an
    empty object file when the path does not exist, then open it. -/
def openConfigFile (file : FileState) : FileState :=
  match file with
  | .missing => .parsed []
  | f => f

/-- The four tool configuration files the manager writes. -/
structure ToolFiles where
  claudeDesktop : FileState
  claudeCode : FileState
  vscode : FileState
  cursor : FileState

/-- The on-disk world the MCPServerManager mutates: the persisted
    install-state store and the tool configuration files. -/
structure ManagerState where
  store : Store
  files : ToolFiles

/-- saveInstalledServers: the store write is wrapped in try catch, so a
    failed write leaves the old document in place and is only logged. -/
def saveInstalledServers (newStore : Store) (env : Env) (oldStore : Store) : Store :=
  if env.persistOk then newStore else oldStore

/-- addToInstalledList: snapshot the catalog entry into the persisted
    store under the server identifier. -/
def addToInstalledList (serverId : String) (config : Json) (env : Env)
    (store : Store) : Store :=
  match vettedServers.find? (fun s => s.id == serverId) with
  | none => store
  | some sc =>
      saveInstalledServers
        (setKey store serverId
          { server := sc, installed := true, enabledTools := [], config := config })
        env store

/-- removeFromInstalledList: delete the key and save the store. -/
def removeFromInstalledList (serverId : String) (env : Env) (store : Store) : Store :=
  saveInstalledServers (delKey store serverId) env store

/-- configureAITools: best-effort fan-out over the four tools; a tool whose
    configure call threw is skipped, every other tool is recorded as
    configured (including VS Code and Cursor skips on a missing file). -/
def configureAITools (serverId : String) (env : Env) (files : ToolFiles) :
    List String × ToolFiles :=
  match vettedServers.find? (fun s => s.id == serverId) with
  | none => ([], files)
  | some sc =>
      let r1 := match configureClaudeDesktop serverId sc (env.writeToolOk "claude-desktop") files.claudeDesktop with
        | some f => (["Claude Desktop"], f)
        | none => ([], files.claudeDesktop)
      let r2 := match configureClaudeCode serverId sc (env.writeToolOk "claude-code") files.claudeCode with
        | some f => (["Claude Code"], f)
        | none => ([], files.claudeCode)
      let r3 := match configureVSCode serverId sc (env.writeToolOk "vscode") files.vscode with
        | some f => (["VS Code"], f)
        | none => ([], files.vscode)
      let r4 := match configureCursor serverId sc (env.writeToolOk "cursor") files.cursor with
        | some f => (["Cursor"], f)
        | none => ([], files.cursor)
      (r1.1 ++ r2.1 ++ r3.1 ++ r4.1,
       { claudeDesktop := r1.2, claudeCode := r2.2, vscode := r3.2, cursor := r4.2 })

/-- removeFromAITools: best-effort fan-out of the four removal functions. -/
def removeFromAITools (serverId : String) (env : Env) (files : ToolFiles) :
    List String × ToolFiles :=
  let r1 := match removeFromClaudeDesktop serverId (env.writeToolOk "claude-desktop") files.claudeDesktop with
    | some f => (["Claude Desktop"], f)
    | none => ([], files.claudeDesktop)
  let r2 := match removeFromClaudeCode serverId (env.writeToolOk "claude-code") files.claudeCode with
    | some f => (["Claude Code"], f)
    | none => ([], files.claudeCode)
  let r3 := match removeFromVSCode serverId (env.writeToolOk "vscode") files.vscode with
    | some f => (["VS Code"], f)
    | none => ([], files.vscode)
  let r4 := match removeFromCursor serverId (env.writeToolOk "cursor") files.cursor with
    | some f => (["Cursor"], f)
    | none => ([], files.cursor)
  (r1.1 ++ r2.1 ++ r3.1 ++ r4.1,
   { claudeDesktop := r1.2, claudeCode := r2.2, vscode := r3.2, cursor := r4.2 })

/-- The details object returned by installServer. -/
structure InstallDetails where
  packageInstalled : Bool
  configurationApplied : Bool
  configuredTools : List String
  errors : List String
  verification : Verification

/-- The result shape of installServer. -/
structure InstallResult where
  success : Bool
  message : String
  details : Option InstallDetails

/-- installServer: check or install the npm package (failures downgraded to
    warnings), unconditionally persist the server into the installed list,
    fan out the per-tool config writes, verify, and report success as
    packageInstalled or configurationApplied. -/
def installServer (serverId : String) (config : Json) (env : Env)
    (st : ManagerState) : InstallResult × ManagerState :=
  match vettedServers.find? (fun s => s.id == serverId) with
  | none =>
      ({ success := false, message := "Server not found in vetted list", details := none }, st)
  | some sc =>
      let isAlreadyInstalled := checkNpmPackageInstalled sc.packageName env
      let step12 :=
        if isAlreadyInstalled then (true, ([] : List String))
        else
          match installNpmPackage sc.packageName env with
          | (true, _) => (true, [])
          | (false, e) => (false, ["npm install failed: " ++ e.getD "Unknown npm error"])
      let packageInstalled := step12.1
      let errors := step12.2
      let store1 := addToInstalledList serverId config env st.store
      let configurationApplied := true
      let step4 := configureAITools serverId env st.files
      let configuredTools := step4.1
      let verification := verifyServerInstallation serverId env store1
      let message0 := sc.name ++ " installation completed"
      let message1 :=
        if configuredTools.length > 0 then
          message0 ++ ". Configured for: " ++ String.intercalate ", " configuredTools
        else message0
      let message2 :=
        if errors.length > 0 then
          message1 ++ ". Warnings: " ++ toString errors.length ++ " issue(s) encountered"
        else message1
      ({ success := packageInstalled || configurationApplied,
         message := message2,
         details := some
           { packageInstalled := packageInstalled,
             configurationApplied := configurationApplied,
             configuredTools := configuredTools,
             errors := errors,
             verification := verification } },
       { store := store1, files := step4.2 })

/-- The details object returned by uninstallServer. -/
structure UninstallDetails where
  configurationRemoved : Bool
  packageRemoved : Bool
  removedFromTools : List String
  errors : List String

/-- The result shape of uninstallServer. -/
structure UninstallResult where
  success : Bool
  message : String
  details : Option UninstallDetails

/-- uninstallServer: remove the entry from every tool configuration
    (best-effort, so configurationRemoved is set whenever the fan-out
    completes, which it always does because each tool is caught on its own),
    remove the persisted record (failure only logged), optionally uninstall
    the npm package, and report success as configurationRemoved or
    packageRemoved. -/
def uninstallServer (serverId : String) (removePackage : Bool) (env : Env)
    (st : ManagerState) : UninstallResult × ManagerState :=
  match vettedServers.find? (fun s => s.id == serverId) with
  | none =>
      ({ success := false, message := "Server not found", details := none }, st)
  | some sc =>
      let step1 := removeFromAITools serverId env st.files
      let removedFromTools := step1.1
      let configurationRemoved := true
      let store1 := removeFromInstalledList serverId env st.store
      let step3 :=
        if removePackage then
          match uninstallNpmPackage sc.packageName env with
          | (true, _) => (true, ([] : List String))
          | (false, e) => (false, ["Package removal failed: " ++ e.getD "Unknown error"])
        else (false, [])
      let packageRemoved := step3.1
      let errors := step3.2
      let message0 := sc.name ++ " uninstalled successfully"
      let message1 :=
        if removedFromTools.length > 0 then
          message0 ++ ". Removed from: " ++ String.intercalate ", " removedFromTools
        else message0
      let message2 :=
        if removePackage then
          message1 ++ (if packageRemoved then ". Package removed from system"
                       else ". Package removal skipped or failed")
        else message1
      let message3 :=
        if errors.length > 0 then
          message2 ++ ". Warnings: " ++ toString errors.length ++ " issue(s) encountered"
        else message2
      ({ success := configurationRemoved || packageRemoved,
         message := message3,
         details := some
           { configurationRemoved := configurationRemoved,
             packageRemoved := packageRemoved,
             removedFromTools := removedFromTools,
             errors := errors } },
       { store := store1, files := step1.2 })

/-- Static configuration of one known tool in AIToolDetector.toolConfigs. -/
structure ToolConfig where
  name : String
  displayName : String
  executable : List String
  configPaths : List String
  appPaths : List String
deriving DecidableEq

/-- The static toolConfigs table of AIToolDetector, with the user home
    directory passed in for the paths built from homedir(). -/
def toolConfigs (home : String) : List ToolConfig :=
  [ { name := "claude-code", displayName := "Claude Code",
      executable := ["claude"],
      configPaths := [home ++ "/.config/claude/claude.json", home ++ "/.claude/config.json"],
      appPaths := [] },
    { name := "vscode", displayName := "Visual Studio Code",
      executable := ["code"],
      configPaths := [home ++ "/Library/Application Support/Code/User/settings.json",
                      home ++ "/.config/Code/User/settings.json",
                      home ++ "/AppData/Roaming/Code/User/settings.json"],
      appPaths := ["/Applications/Visual Studio Code.app", "/usr/share/code",
                   home ++ "/AppData/Local/Programs/Microsoft VS Code"] },
    { name := "cursor", displayName := "Cursor",
      executable := ["cursor"],
      configPaths := [home ++ "/Library/Application Support/Cursor/User/settings.json",
                      home ++ "/.config/Cursor/User/settings.json",
                      home ++ "/AppData/Roaming/Cursor/User/settings.json"],
      appPaths := ["/Applications/Cursor.app", "/usr/share/cursor",
                   home ++ "/AppData/Local/Programs/Cursor"] } ]

/-- Filesystem and subprocess outcomes the detector observes. Each probe of
    the TypeScript code catches its own errors, so a probe that threw is the
    same observation as a probe that found nothing. -/
structure DetectEnv where
  /-- result of the which lookup for an executable name. -/
  whichFind : String → Option String
  /-- existsSync on a path. -/
  pathExists : String → Bool
  /-- first line of the version-flag output of the executable, when the
      5 second probe succeeded and parsed. -/
  versionOutput : String → Option String

/-- The detection record AIToolDetector.detectTool returns. -/
structure DetectedTool where
  name : String
  displayName : String
  detected : Bool
  configPath : Option String
  version : Option String
  executable : Option String

/-- findExecutable: first which hit over the executable name candidates. -/
def findExecutable (names : List String) (env : DetectEnv) : Option String :=
  match names with
  | [] => none
  | n :: rest =>
      match env.whichFind n with
      | some p => some p
      | none => findExecutable rest env

/-- findAppPath: first existing application-bundle path. -/
def findAppPath (paths : List String) (env : DetectEnv) : Option String :=
  paths.find? env.pathExists

/-- findConfigPath: first existing config-file path. -/
def findConfigPath (paths : List String) (env : DetectEnv) : Option String :=
  paths.find? env.pathExists

/-- detectTool: executable lookup, then application-bundle fallback, then
    the independent config-file check that also counts as detection. -/
def detectTool (tc : ToolConfig) (env : DetectEnv) : DetectedTool :=
  let t0 : DetectedTool :=
    { name := tc.name, displayName := tc.displayName, detected := false,
      configPath := none, version := none, executable := none }
  let t1 :=
    match findExecutable tc.executable env with
    | some e => { t0 with detected := true, executable := some e, version := env.versionOutput e }
    | none => t0
  let t2 :=
    if t1.detected then t1
    else
      match findAppPath tc.appPaths env with
      | some p => { t1 with detected := true, executable := some p }
      | none => t1
  match findConfigPath tc.configPaths env with
  | some cp =>
      let t3 := { t2 with configPath := some cp }
      if t3.detected then t3 else { t3 with detected := true }
  | none => t2

/-- The renderer-side server record of AppStateManager. -/
structure ServerUI where
  id : String
  name : String
  company : String
  description : String
  packageName : String
  installed : Bool
  enabledTools : List String
  requiresAuth : Bool
  version : Option String
  status : Option String
  lastVerified : Option String

/-- A server as delivered by the backend getVettedServers call; the
    MCPServer interface of the backend has no status and no lastVerified
    field, so the load mapping sees those as undefined. -/
structure BackendServer where
  id : String
  name : String
  company : String
  description : String
  packageName : String
  installed : Bool
  enabledTools : List String
  requiresAuth : Bool
  version : Option String

/-- The per-record mapping applied by loadServersFromBackend: status is the
    backend status (undefined) defaulted to working when installed, failed
    otherwise; lastVerified is the backend value (undefined). -/
def mapBackendServer (b : BackendServer) : ServerUI :=
  { id := b.id, name := b.name, company := b.company, description := b.description,
    packageName := b.packageName, installed := b.installed,
    enabledTools := b.enabledTools, requiresAuth := b.requiresAuth,
    version := b.version,
    status := some (if b.installed then "working" else "failed"),
    lastVerified := none }

/-- loadServersFromBackend: replace the in-memory list wholesale. -/
def loadServersFromBackend (bs : List BackendServer) : List ServerUI :=
  bs.map mapBackendServer

/-- AppStateManager.installServer local-state update: on backend success,
    mark installed, working and freshly verified. -/
def appInstallServer (id : String) (ok : Bool) (ts : String)
    (servers : List ServerUI) : List ServerUI :=
  if ok then
    servers.map (fun s =>
      if s.id == id then
        { s with installed := true, status := some "working", lastVerified := some ts }
      else s)
  else servers

/-- AppStateManager.uninstallServer local-state update: on backend success,
    mark not installed, failed, lastVerified cleared. -/
def appUninstallServer (id : String) (ok : Bool)
    (servers : List ServerUI) : List ServerUI :=
  if ok then
    servers.map (fun s =>
      if s.id == id then
        { s with installed := false, status := some "failed", lastVerified := none }
      else s)
  else servers

/-- AppStateManager.updateServerStatus: overwrite status, and lastVerified
    only when one is provided; the installed flag is not consulted. -/
def appUpdateServerStatus (id status : String) (lastVerified : Option String)
    (servers : List ServerUI) : List ServerUI :=
  servers.map (fun s =>
    if s.id == id then
      { s with status := some status,
               lastVerified := match lastVerified with
                               | some ts => some ts
                               | none => s.lastVerified }
    else s)

/-- The per-record part of the claimed registry invariant: a server that is
    not installed has failed status and no lastVerified timestamp. -/
def serverInvariantOk (s : ServerUI) : Bool :=
  s.installed || ((s.status == some "failed") && s.lastVerified.isNone)

/-- The claimed registry invariant over the whole in-memory list. -/
def serversInvariant (servers : List ServerUI) : Bool :=
  servers.all serverInvariantOk

/-- Registry states reachable by loading from the backend and applying the
    install and uninstall local-state updates. -/
inductive RegistryReachable : List ServerUI → Prop where
  | load (bs : List BackendServer) : RegistryReachable (loadServersFromBackend bs)
  | install (id : String) (ok : Bool) (ts : String) (servers : List ServerUI) :
      RegistryReachable servers → RegistryReachable (appInstallServer id ok ts servers)
  | uninstall (id : String) (ok : Bool) (servers : List ServerUI) :
      RegistryReachable servers → RegistryReachable (appUninstallServer id ok servers)

/-- Identifiers of the four tools whose configuration files the manager writes. -/
def managedToolIds : List String := ["claude-desktop", "claude-code", "vscode", "cursor"]

/-- The top-level JSON key each tool keeps its MCP server entries under. -/
def toolNamespace (t : String) : String :=
  if t == "claude-desktop" || t == "claude-code" then "mcpServers" else "mcp.servers"

/-- Dispatch to the per-tool configure function. -/
def toolConfigureFile (t serverId : String) (sc : VettedServer) (writeOk : Bool)
    (file : FileState) : Option FileState :=
  if t == "claude-desktop" then configureClaudeDesktop serverId sc writeOk file
  else if t == "claude-code" then configureClaudeCode serverId sc writeOk file
  else if t == "vscode" then configureVSCode serverId sc writeOk file
  else configureCursor serverId sc writeOk file

/-- Dispatch to the per-tool removal function. -/
def toolRemoveFile (t serverId : String) (writeOk : Bool)
    (file : FileState) : Option FileState :=
  if t == "claude-desktop" then removeFromClaudeDesktop serverId writeOk file
  else if t == "claude-code" then removeFromClaudeCode serverId writeOk file
  else if t == "vscode" then removeFromVSCode serverId writeOk file
  else removeFromCursor serverId writeOk file

/-- Lookup of a server entry inside the namespace object of a document. -/
def getServerEntry (ns : String) (kvs : List (String × Json)) (serverId : String) :
    Option Json :=
  getKey (nsObjOrEmpty kvs ns) serverId

/- Concrete fixtures used by witnesses and counterexamples. -/

/-- An environment in which every external effect fails. -/
def envAllFail : Env :=
  { npmListOk := fun _ => false, npxHelpOk := fun _ => false,
    npmInstallErr := fun _ => some "npm install exec failed",
    pkgPresentAfterInstall := fun _ => false,
    npmUninstallErr := fun _ => some "npm uninstall exec failed",
    pkgPresentAfterUninstall := fun _ => true,
    npxRespondOk := fun _ => false, persistOk := false,
    writeToolOk := fun _ => false }

/-- An environment in which every external effect succeeds. -/
def envAllOk : Env :=
  { npmListOk := fun _ => true, npxHelpOk := fun _ => false,
    npmInstallErr := fun _ => none,
    pkgPresentAfterInstall := fun _ => true,
    npmUninstallErr := fun _ => none,
    pkgPresentAfterUninstall := fun _ => false,
    npxRespondOk := fun _ => true, persistOk := true,
    writeToolOk := fun _ => true }

/-- An environment where the package is present but both the store write
    and the package uninstall fail. -/
def envUninstallFail : Env :=
  { npmListOk := fun _ => true, npxHelpOk := fun _ => false,
    npmInstallErr := fun _ => none,
    pkgPresentAfterInstall := fun _ => true,
    npmUninstallErr := fun _ => some "EPERM",
    pkgPresentAfterUninstall := fun _ => true,
    npxRespondOk := fun _ => false, persistOk := false,
    writeToolOk := fun _ => false }

/-- A detection environment in which nothing is found. -/
def detectEnvNone : DetectEnv :=
  { whichFind := fun _ => none, pathExists := fun _ => false,
    versionOutput := fun _ => none }

/-- The github catalog entry, used as a concrete sample. -/
def sampleGithubServer : VettedServer :=
  { id := "github-mcp", name := "GitHub MCP Server", company := "github",
    description := "Access GitHub repositories, files, issues, and pull requests. Features automatic branch creation and comprehensive error handling.",
    packageName := "@modelcontextprotocol/server-github", requiresAuth := true }

/-- The filesystem catalog entry, used as a concrete sample without auth. -/
def sampleFilesystemServer : VettedServer :=
  { id := "filesystem-mcp", name := "File System MCP Server", company := "anthropic",
    description := "Secure file operations with configurable access controls. Flexible directory access control system.",
    packageName := "@modelcontextprotocol/server-filesystem", requiresAuth := false }

/-- A persisted record for the github server. -/
def sampleGithubRecord : InstalledRecord :=
  { server := sampleGithubServer, installed := true, enabledTools := [],
    config := Json.obj [] }

/-- A world with an empty store and no tool configuration file on disk. -/
def emptyState : ManagerState :=
  { store := [],
    files := { claudeDesktop := .missing, claudeCode := .missing,
               vscode := .missing, cursor := .missing } }

/-- A world whose store already holds the github server. -/
def githubInstalledState : ManagerState :=
  { store := [("github-mcp", sampleGithubRecord)],
    files := { claudeDesktop := .missing, claudeCode := .missing,
               vscode := .missing, cursor := .missing } }

/-- A backend server record for github that is not installed. -/
def sampleBackendServer : BackendServer :=
  { id := "github-mcp", name := "GitHub MCP Server", company := "github",
    description := "Access GitHub repositories, files, issues, and pull requests. Features automatic branch creation and comprehensive error handling.",
    packageName := "@modelcontextprotocol/server-github", installed := false,
    enabledTools := [], requiresAuth := true, version := none }

/- Helper lemmas about the config writer core. -/

theorem getEntry_writeEntry (ns serverId : String) (sc : VettedServer)
    (kvs : List (String × Json)) :
    getServerEntry ns (writeEntry ns serverId sc kvs) serverId
      = some (serverEntryJson serverId sc) := by
  unfold getServerEntry writeEntry nsObjOrEmpty
  rw [getKey_setKey_same]
  exact getKey_setKey_same _ _ _

theorem nsObj_setKey (k : String) (s : List (String × Json))
    (kvs : List (String × Json)) :
    nsObjOrEmpty (setKey kvs k (Json.obj s)) k = s := by
  unfold nsObjOrEmpty
  rw [getKey_setKey_same]

theorem nsObj_writeEntry (ns serverId : String) (sc : VettedServer)
    (kvs : List (String × Json)) :
    nsObjOrEmpty (writeEntry ns serverId sc kvs) ns
      = setKey (nsObjOrEmpty kvs ns) serverId (serverEntryJson serverId sc) := by
  unfold writeEntry nsObjOrEmpty
  rw [getKey_setKey_same]

theorem removeEntry_of_not_writes (ns serverId : String) (kvs : List (String × Json))
    (h : removeWrites ns serverId kvs = false) :
    removeEntry ns serverId kvs = kvs := by
  unfold removeEntry
  unfold removeWrites at h
  cases hg : getKey kvs ns with
  | none => simp [hg]
  | some j =>
      cases j with
      | obj s =>
          simp only [hg] at h ⊢
          cases he : getKey s serverId with
          | none => simp [he]
          | some e =>
              simp only [he] at h ⊢
              simp [h]
      | null => simp [hg]
      | bool b => simp [hg]
      | num n => simp [hg]
      | str s => simp [hg]
      | arr xs => simp [hg]

theorem removeWrites_writeEntry (ns serverId : String) (sc : VettedServer)
    (kvs : List (String × Json)) :
    removeWrites ns serverId (writeEntry ns serverId sc kvs) = true := by
  simp only [removeWrites, writeEntry, getKey_setKey_same]
  rfl

theorem removeEntry_writeEntry (ns serverId : String) (sc : VettedServer)
    (kvs : List (String × Json)) :
    removeEntry ns serverId (writeEntry ns serverId sc kvs)
      = setKey (writeEntry ns serverId sc kvs) ns
          (Json.obj (delKey (setKey (nsObjOrEmpty kvs ns) serverId
            (serverEntryJson serverId sc)) serverId)) := by
  conv => lhs; simp only [removeEntry, writeEntry, getKey_setKey_same]
  rfl

/-- C1: the overall status computed by verifyServerInstallation follows the
    tri-state rule on the three check booleans: with configurationValid
    false the status is failed; otherwise it is working exactly when both
    packageAvailable and serverResponds hold, and partial otherwise — all
    8 boolean combinations conform, and the status field of every
    verification result is this reduction of its three booleans. -/
theorem verify_tri_state_rule :
    (∀ p c r : Bool,
      overallStatusOf p c r =
        if c then (if p && r then "working" else "partial") else "failed")
    ∧ (∀ (serverId : String) (env : Env) (store : Store),
        (verifyServerInstallation serverId env store).overallStatus =
          overallStatusOf (verifyServerInstallation serverId env store).packageAvailable
            (verifyServerInstallation serverId env store).configurationValid
            (verifyServerInstallation serverId env store).serverResponds) := by
  constructor
  · intro p c r
    cases p <;> cases c <;> cases r <;> rfl
  · intro serverId env store
    cases hfind : vettedServers.find? (fun s => s.id == serverId) with
    | none => simp [verifyServerInstallation, hfind, overallStatusOf]
    | some sc => simp [verifyServerInstallation, hfind]

/-- C2: for a catalog server, installServer persists the server into the
    installed-servers record (when the store write itself succeeds), and a
    subsequent verifyServerInstallation reports configurationValid = true,
    whatever the npm package-install outcomes were; moreover the
    configurationValid check is exactly key membership in the store. -/
theorem install_then_verify_configurationValid (serverId : String) (config : Json)
    (env : Env) (st : ManagerState)
    (h : (vettedServers.find? (fun s => s.id == serverId)).isSome = true)
    (hp : env.persistOk = true) :
    (verifyServerInstallation serverId env
      ((installServer serverId config env st).2.store)).configurationValid = true
    ∧ ∀ store : Store,
        (verifyServerInstallation serverId env store).configurationValid
          = (getKey store serverId).isSome := by
  obtain ⟨sc, hsc⟩ := Option.isSome_iff_exists.mp h
  constructor
  · simp [installServer, verifyServerInstallation, hsc, addToInstalledList,
      saveInstalledServers, hp, getKey_setKey_same]
  · intro store
    simp [verifyServerInstallation, hsc]

/-- Witness for C2 at the github server with an all-success environment. -/
theorem install_then_verify_configurationValid_witness :
    (vettedServers.find? (fun s => s.id == "github-mcp")).isSome = true
    ∧ envAllOk.persistOk = true
    ∧ (verifyServerInstallation "github-mcp" envAllOk
        ((installServer "github-mcp" (Json.obj []) envAllOk emptyState).2.store)).configurationValid
        = true :=
  ⟨by rfl, rfl,
    (install_then_verify_configurationValid "github-mcp" (Json.obj []) envAllOk
      emptyState (by rfl) rfl).1⟩

/-- C3 counterexample: with the store write failing and every per-tool
    configuration write failing, installServer on the github server still
    returns success = true, while the resulting world is completely
    unchanged — no installed-record was persisted and no configuration
    write succeeded (the two tools listed in configuredTools are VS Code
    and Cursor, which were merely skipped because their settings files do
    not exist, as the unchanged state shows) — refuting success being
    equivalent to (persistence succeeded or some configuration write
    succeeded). -/
theorem install_success_counterexample :
    (installServer "github-mcp" (Json.obj []) envAllFail emptyState).1.success = true
    ∧ envAllFail.persistOk = false
    ∧ (installServer "github-mcp" (Json.obj []) envAllFail emptyState).2 = emptyState
    ∧ ((installServer "github-mcp" (Json.obj []) envAllFail emptyState).1.details.map
        (fun d => d.configuredTools)) = some ["VS Code", "Cursor"]
    ∧ ((installServer "github-mcp" (Json.obj []) envAllFail emptyState).1.details.map
        (fun d => d.packageInstalled)) = some false :=
  ⟨rfl, rfl, rfl, rfl, rfl⟩

/-- C3 amended: installServer computes success as packageInstalled or
    configurationApplied, and configurationApplied is set unconditionally
    right after the persist attempt regardless of whether the store write
    succeeded, while per-tool configuration write outcomes are never
    consulted — so for every catalog server and every outcome of the
    sub-steps, installServer returns success = true. -/
theorem install_success_always (serverId : String) (config : Json) (env : Env)
    (st : ManagerState)
    (h : (vettedServers.find? (fun s => s.id == serverId)).isSome = true) :
    (installServer serverId config env st).1.success = true := by
  obtain ⟨sc, hsc⟩ := Option.isSome_iff_exists.mp h
  simp [installServer, hsc]

/-- Witness for the amended C3 at the github server with every external
    effect failing. -/
theorem install_success_always_witness :
    (vettedServers.find? (fun s => s.id == "github-mcp")).isSome = true
    ∧ (installServer "github-mcp" (Json.obj []) envAllFail emptyState).1.success = true :=
  ⟨by rfl, install_success_always "github-mcp" (Json.obj []) envAllFail emptyState (by rfl)⟩

/-- C4 counterexample: with the package present, the package uninstall
    failing and the store write failing, uninstallServer on the github
    server returns success = true even though the persisted record removal
    did not succeed (the record is still in the store) and the package
    removal did not succeed — refuting success being equivalent to
    (record removal succeeded or package removal succeeded). -/
theorem uninstall_success_counterexample :
    (uninstallServer "github-mcp" true envUninstallFail githubInstalledState).1.success = true
    ∧ ((uninstallServer "github-mcp" true envUninstallFail githubInstalledState).1.details.map
        (fun d => d.packageRemoved)) = some false
    ∧ (uninstallServer "github-mcp" true envUninstallFail githubInstalledState).2.store
        = githubInstalledState.store
    ∧ getKey (uninstallServer "github-mcp" true envUninstallFail githubInstalledState).2.store
        "github-mcp" = some sampleGithubRecord :=
  ⟨rfl, rfl, rfl, rfl⟩

/-- C4 amended: uninstallServer computes success as configurationRemoved or
    packageRemoved, and configurationRemoved is set whenever the per-tool
    config-removal fan-out completes — which it always does, because each
    tool is wrapped in its own catch — while the persisted-record removal
    outcome is never consulted; so for every catalog server and every
    outcome of the sub-steps, uninstallServer returns success = true. -/
theorem uninstall_success_always (serverId : String) (removePackage : Bool)
    (env : Env) (st : ManagerState)
    (h : (vettedServers.find? (fun s => s.id == serverId)).isSome = true) :
    (uninstallServer serverId removePackage env st).1.success = true := by
  obtain ⟨sc, hsc⟩ := Option.isSome_iff_exists.mp h
  simp [uninstallServer, hsc]

/-- Witness for the amended C4 at the github server with failing effects. -/
theorem uninstall_success_always_witness :
    (vettedServers.find? (fun s => s.id == "github-mcp")).isSome = true
    ∧ (uninstallServer "github-mcp" true envUninstallFail githubInstalledState).1.success
        = true :=
  ⟨by rfl,
    uninstall_success_always "github-mcp" true envUninstallFail githubInstalledState (by rfl)⟩

/-- C5 counterexample: during install auto-configuration with a missing
    Claude Desktop config file, configureClaudeDesktop does not skip — it
    creates the file (with the merged server entry), so a config file is
    created outside the explicit open-config-file action. -/
theorem claude_configure_creates_file_counterexample :
    configureClaudeDesktop "filesystem-mcp" sampleFilesystemServer true FileState.missing
      = some (FileState.parsed
          [("mcpServers", Json.obj
            [("filesystem-mcp", serverEntryJson "filesystem-mcp" sampleFilesystemServer)])])
    ∧ configureClaudeDesktop "filesystem-mcp" sampleFilesystemServer true FileState.missing
        ≠ some FileState.missing := by
  refine ⟨rfl, ?_⟩
  intro h
  exact FileState.noConfusion (Option.some.inj h)

/-- C5 amended: when the tool config file does not exist, the install-time
    write is skipped silently with nothing created only for VS Code and
    Cursor; for Claude Desktop and Claude Code the configure step creates
    the directory and a new config file containing the server entry. The
    explicit open-config-file action creates parent directories and an
    empty object file when the path is missing and leaves an existing file
    untouched. -/
theorem missing_config_write_behavior :
    (∀ (serverId : String) (sc : VettedServer) (writeOk : Bool),
      configureVSCode serverId sc writeOk FileState.missing = some FileState.missing)
    ∧ (∀ (serverId : String) (sc : VettedServer) (writeOk : Bool),
        configureCursor serverId sc writeOk FileState.missing = some FileState.missing)
    ∧ (∀ (serverId : String) (sc : VettedServer),
        configureClaudeDesktop serverId sc true FileState.missing
          = some (FileState.parsed (writeEntry "mcpServers" serverId sc [])))
    ∧ (∀ (serverId : String) (sc : VettedServer),
        configureClaudeCode serverId sc true FileState.missing
          = some (FileState.parsed (writeEntry "mcpServers" serverId sc [])))
    ∧ openConfigFile FileState.missing = FileState.parsed []
    ∧ (∀ kvs, openConfigFile (FileState.parsed kvs) = FileState.parsed kvs)
    ∧ openConfigFile FileState.malformed = FileState.malformed :=
  ⟨fun _ _ _ => rfl, fun _ _ _ => rfl, fun _ _ => rfl, fun _ _ => rfl,
   rfl, fun _ => rfl, rfl⟩

/-- C6: for a catalog server, uninstallServer deletes the key from the
    persisted installed-servers record (when the store write succeeds), and
    a subsequent verifyServerInstallation does not find it, reporting
    configurationValid = false. -/
theorem uninstall_then_verify_configurationInvalid (serverId : String)
    (removePackage : Bool) (env : Env) (st : ManagerState)
    (h : (vettedServers.find? (fun s => s.id == serverId)).isSome = true)
    (hp : env.persistOk = true) :
    getKey ((uninstallServer serverId removePackage env st).2.store) serverId = none
    ∧ (verifyServerInstallation serverId env
        ((uninstallServer serverId removePackage env st).2.store)).configurationValid
        = false := by
  obtain ⟨sc, hsc⟩ := Option.isSome_iff_exists.mp h
  have hstore : (uninstallServer serverId removePackage env st).2.store
      = delKey st.store serverId := by
    simp [uninstallServer, hsc, removeFromInstalledList, saveInstalledServers, hp]
  refine ⟨?_, ?_⟩
  · rw [hstore]; exact getKey_delKey_same _ _
  · rw [hstore]
    simp [verifyServerInstallation, hsc, getKey_delKey_same]

/-- Witness for C6 at the github server with an all-success environment. -/
theorem uninstall_then_verify_configurationInvalid_witness :
    (vettedServers.find? (fun s => s.id == "github-mcp")).isSome = true
    ∧ envAllOk.persistOk = true
    ∧ getKey ((uninstallServer "github-mcp" false envAllOk githubInstalledState).2.store)
        "github-mcp" = none :=
  ⟨by rfl, rfl,
    (uninstall_then_verify_configurationInvalid "github-mcp" false envAllOk
      githubInstalledState (by rfl) rfl).1⟩

/-- C7: on an existing config file whose namespace key is absent or an
    object, the per-tool write produces a document whose namespace contains
    the entry for the server while every other top-level key is unchanged;
    the subsequent per-tool removal deletes exactly that entry, leaving
    every other top-level key and every other server entry in the namespace
    untouched. Claude Desktop and Claude Code use the mcpServers namespace,
    VS Code and Cursor use mcp.servers. -/
theorem config_write_remove_round_trip (t serverId : String) (sc : VettedServer)
    (kvs : List (String × Json))
    (ht : t ∈ managedToolIds)
    (hns : nsObjOk kvs (toolNamespace t) = true) :
    toolConfigureFile t serverId sc true (FileState.parsed kvs)
      = some (FileState.parsed (writeEntry (toolNamespace t) serverId sc kvs))
    ∧ getServerEntry (toolNamespace t) (writeEntry (toolNamespace t) serverId sc kvs)
        serverId = some (serverEntryJson serverId sc)
    ∧ delKey (writeEntry (toolNamespace t) serverId sc kvs) (toolNamespace t)
        = delKey kvs (toolNamespace t)
    ∧ toolRemoveFile t serverId true
        (FileState.parsed (writeEntry (toolNamespace t) serverId sc kvs))
        = some (FileState.parsed
            (removeEntry (toolNamespace t) serverId (writeEntry (toolNamespace t) serverId sc kvs)))
    ∧ getServerEntry (toolNamespace t)
        (removeEntry (toolNamespace t) serverId (writeEntry (toolNamespace t) serverId sc kvs))
        serverId = none
    ∧ delKey (removeEntry (toolNamespace t) serverId (writeEntry (toolNamespace t) serverId sc kvs))
        (toolNamespace t)
        = delKey (writeEntry (toolNamespace t) serverId sc kvs) (toolNamespace t)
    ∧ nsObjOrEmpty (removeEntry (toolNamespace t) serverId (writeEntry (toolNamespace t) serverId sc kvs))
        (toolNamespace t)
        = delKey (nsObjOrEmpty (writeEntry (toolNamespace t) serverId sc kvs) (toolNamespace t))
            serverId := by
  have core : ∀ ns : String,
      getServerEntry ns (writeEntry ns serverId sc kvs) serverId
          = some (serverEntryJson serverId sc)
      ∧ delKey (writeEntry ns serverId sc kvs) ns = delKey kvs ns
      ∧ getServerEntry ns (removeEntry ns serverId (writeEntry ns serverId sc kvs))
          serverId = none
      ∧ delKey (removeEntry ns serverId (writeEntry ns serverId sc kvs)) ns
          = delKey (writeEntry ns serverId sc kvs) ns
      ∧ nsObjOrEmpty (removeEntry ns serverId (writeEntry ns serverId sc kvs)) ns
          = delKey (nsObjOrEmpty (writeEntry ns serverId sc kvs) ns) serverId := by
    intro ns
    have hrm := removeEntry_writeEntry ns serverId sc kvs
    refine ⟨getEntry_writeEntry ns serverId sc kvs, ?_, ?_, ?_, ?_⟩
    · exact delKey_setKey_self _ _ _
    · rw [hrm]
      unfold getServerEntry
      rw [nsObj_setKey]
      exact getKey_delKey_same _ _
    · rw [hrm]
      exact delKey_setKey_self _ _ _
    · rw [hrm, nsObj_setKey, nsObj_writeEntry]
  have hremfile : ∀ ns : String,
      (if removeWrites ns serverId (writeEntry ns serverId sc kvs) then
        (if true then some (FileState.parsed
            (removeEntry ns serverId (writeEntry ns serverId sc kvs))) else none)
      else some (FileState.parsed (writeEntry ns serverId sc kvs)))
        = some (FileState.parsed
            (removeEntry ns serverId (writeEntry ns serverId sc kvs))) := by
    intro ns
    rw [removeWrites_writeEntry]
    simp
  simp only [managedToolIds, List.mem_cons, List.not_mem_nil, or_false] at ht
  rcases ht with rfl | rfl | rfl | rfl <;>
    exact ⟨rfl, (core _).1, (core _).2.1, hremfile _, (core _).2.2.1,
      (core _).2.2.2.1, (core _).2.2.2.2⟩

/-- Witness for C7: VS Code on the spec scenario document that holds one
    unrelated key. -/
theorem config_write_remove_round_trip_witness :
    ("vscode" ∈ managedToolIds)
    ∧ nsObjOk [("unrelated", Json.num 1)] (toolNamespace "vscode") = true
    ∧ getServerEntry (toolNamespace "vscode")
        (writeEntry (toolNamespace "vscode") "github-mcp" sampleGithubServer
          [("unrelated", Json.num 1)]) "github-mcp"
        = some (serverEntryJson "github-mcp" sampleGithubServer) :=
  ⟨by decide, rfl,
    (config_write_remove_round_trip "vscode" "github-mcp" sampleGithubServer
      [("unrelated", Json.num 1)] (by decide) rfl).2.1⟩

/-- C8: for every known tool of the detector table, detectTool reports
    detected = true exactly when the executable lookup, the
    application-bundle path check, or the config-file path check succeeds;
    every probe catches its own failures, so the detector always returns a
    record whatever the environment observes. -/
theorem detectTool_detected_iff (home : String) (tc : ToolConfig) (env : DetectEnv)
    (ht : tc ∈ toolConfigs home) :
    (detectTool tc env).detected =
      ((findExecutable tc.executable env).isSome
        || (findAppPath tc.appPaths env).isSome
        || (findConfigPath tc.configPaths env).isSome) := by
  unfold detectTool
  cases h1 : findExecutable tc.executable env with
  | some e =>
      cases h3 : findConfigPath tc.configPaths env <;> simp
  | none =>
      cases h2 : findAppPath tc.appPaths env with
      | some p => cases h3 : findConfigPath tc.configPaths env <;> simp
      | none => cases h3 : findConfigPath tc.configPaths env <;> simp

/-- Witness for C8 at the claude-code table entry with an environment that
    observes nothing. -/
theorem detectTool_detected_iff_witness :
    ({ name := "claude-code", displayName := "Claude Code",
       executable := ["claude"],
       configPaths := ["/home/user/.config/claude/claude.json",
                       "/home/user/.claude/config.json"],
       appPaths := [] } : ToolConfig) ∈ toolConfigs "/home/user"
    ∧ (detectTool
        { name := "claude-code", displayName := "Claude Code",
          executable := ["claude"],
          configPaths := ["/home/user/.config/claude/claude.json",
                          "/home/user/.claude/config.json"],
          appPaths := [] } detectEnvNone).detected =
      ((findExecutable ["claude"] detectEnvNone).isSome
        || (findAppPath [] detectEnvNone).isSome
        || (findConfigPath ["/home/user/.config/claude/claude.json",
                            "/home/user/.claude/config.json"] detectEnvNone).isSome) :=
  ⟨by decide,
    detectTool_detected_iff "/home/user"
      { name := "claude-code", displayName := "Claude Code",
        executable := ["claude"],
        configPaths := ["/home/user/.config/claude/claude.json",
                        "/home/user/.claude/config.json"],
        appPaths := [] } detectEnvNone (by decide)⟩

/-- C9 counterexample: from the state loaded from a backend that reports
    the github server as not installed — a state satisfying the claimed
    invariant — one call of updateServerStatus (an operation of the claim)
    yields a server with installed = false, status working and a
    lastVerified timestamp, violating the invariant. -/
theorem registry_invariant_counterexample :
    serversInvariant (loadServersFromBackend [sampleBackendServer]) = true
    ∧ serversInvariant
        (appUpdateServerStatus "github-mcp" "working"
          (some "2025-01-01T00:00:00.000Z")
          (loadServersFromBackend [sampleBackendServer])) = false
    ∧ (appUpdateServerStatus "github-mcp" "working"
          (some "2025-01-01T00:00:00.000Z")
          (loadServersFromBackend [sampleBackendServer])).map
        (fun s => (s.installed, s.status, s.lastVerified))
        = [(false, some "working", some "2025-01-01T00:00:00.000Z")] :=
  ⟨rfl, rfl, rfl⟩

/-- C9 amended: the invariant (installed = false implies failed status and
    no lastVerified) holds in every state reachable by loading from the
    backend (whose records carry no status and no lastVerified field) and
    by the installServer and uninstallServer local-state updates; the
    updateServerStatus operation (and likewise the status updates of
    verifyServerInstallation and updateServer) can break it, because they
    set status and lastVerified without consulting the installed flag. -/
theorem registry_invariant_reachable (servers : List ServerUI)
    (h : RegistryReachable servers) : serversInvariant servers = true := by
  induction h with
  | load bs =>
      rw [serversInvariant, List.all_eq_true]
      intro s hs
      obtain ⟨b, _, rfl⟩ := List.mem_map.mp hs
      unfold mapBackendServer serverInvariantOk
      cases b.installed <;> simp
  | install id ok ts servers hr ih =>
      unfold appInstallServer
      cases ok with
      | false => simpa using ih
      | true =>
          rw [if_pos rfl, serversInvariant, List.all_eq_true]
          intro x hx
          obtain ⟨s, hs, rfl⟩ := List.mem_map.mp hx
          by_cases hid : (s.id == id) = true
          · simp [hid, serverInvariantOk]
          · rw [if_neg (by simp [hid])]
            exact List.all_eq_true.mp ih s hs
  | uninstall id ok servers hr ih =>
      unfold appUninstallServer
      cases ok with
      | false => simpa using ih
      | true =>
          rw [if_pos rfl, serversInvariant, List.all_eq_true]
          intro x hx
          obtain ⟨s, hs, rfl⟩ := List.mem_map.mp hx
          by_cases hid : (s.id == id) = true
          · simp [hid, serverInvariantOk]
          · rw [if_neg (by simp [hid])]
            exact List.all_eq_true.mp ih s hs

/-- Witness for the amended C9 at a one-server backend load. -/
theorem registry_invariant_reachable_witness :
    serversInvariant (loadServersFromBackend [sampleBackendServer]) = true :=
  registry_invariant_reachable _ (RegistryReachable.load [sampleBackendServer])

/-- C10: for a server identifier that is not in the vetted catalog,
    installServer returns success = false with the not-found message and
    leaves the persisted store and every tool configuration file unchanged,
    and verifyServerInstallation returns all three checks false with
    overall status failed for every environment and store — in particular
    its result never consults the external command environment. -/
theorem unknown_server_install_verify (serverId : String) (config : Json)
    (env : Env) (st : ManagerState) (store : Store)
    (h : vettedServers.find? (fun s => s.id == serverId) = none) :
    installServer serverId config env st
      = ({ success := false, message := "Server not found in vetted list",
           details := none }, st)
    ∧ verifyServerInstallation serverId env store
      = { packageAvailable := false, configurationValid := false,
          serverResponds := false, overallStatus := "failed" } := by
  constructor
  · simp [installServer, h]
  · simp [verifyServerInstallation, h]

/-- Witness for C10 at an identifier outside the catalog. -/
theorem unknown_server_install_verify_witness :
    vettedServers.find? (fun s => s.id == "not-a-server") = none
    ∧ installServer "not-a-server" (Json.obj []) envAllOk emptyState
      = ({ success := false, message := "Server not found in vetted list",
           details := none }, emptyState) :=
  ⟨by rfl,
    (unknown_server_install_verify "not-a-server" (Json.obj []) envAllOk
      emptyState [] (by rfl)).1⟩

end MCPManager
